import Mathlib

/-!
Verification of the NYC taxi Traffic Management System backend core.

This file gives a shallow embedding in Lean 4 of the core components of the
backend service: the trip-duration prediction pipeline
(`backend/routers/predictions.py`), the route-optimization adapter
(`backend/routers/routes.py`), and the geospatial / validation utilities
(`backend/app/utils.py`), together with theorems settling the specified
properties of those components.

Modelling conventions:
- Python floats are modelled as real numbers (`ℝ`), Python ints as `ℤ` or `ℕ`.
- A raised `HTTPException` is modelled as the `error` branch of an `Except`
  value carrying the status code and detail string.
- The external directions provider (OpenRouteService) is modelled as an
  oracle argument: either a well-typed response payload or a raised
  exception carrying a message.  Payload keys that the code reads with a
  direct subscript (`step['distance']`) are mandatory fields of the payload
  structures; keys read with `.get(k, default)` are `Option` fields.
- `datetime.strptime(s, '%Y-%m-%d %H:%M:%S')` (standard library, outside
  this repository) is modelled from the spec's fixed format
  `YYYY-MM-DD HH:MM:SS`: a fixed-width parse with calendar validation
  (month 1–12, day within the month honouring leap years, hour 0–23,
  minute/second 0–59).  `datetime.weekday()` (Monday = 0 … Sunday = 6) is
  computed through the standard days-from-civil-date algorithm.
-/

namespace TrafficMS

/-! ## Model of `datetime.strptime` with format `%Y-%m-%d %H:%M:%S` -/

/-- A parsed Python `datetime` value (the fields the feature builder reads). -/
structure PyDateTime where
  year : Nat
  month : Nat
  day : Nat
  hour : Nat
  minute : Nat
  second : Nat
deriving DecidableEq

/-- Numeric value of a decimal digit character, `none` for non-digits. -/
def digitVal (c : Char) : Option Nat :=
  if c.isDigit then some (c.toNat - 48) else none

/-- Two-digit decimal number from two digit characters. -/
def num2 (a b : Char) : Option Nat := do
  let x ← digitVal a
  let y ← digitVal b
  pure (10 * x + y)

/-- Gregorian leap-year test, as used by the Python `datetime` module. -/
def isLeapYear (y : Nat) : Bool :=
  (y % 4 == 0 && y % 100 != 0) || y % 400 == 0

/-- Number of days in a month of a given year. -/
def daysInMonth (y m : Nat) : Nat :=
  if m = 2 then (if isLeapYear y then 29 else 28)
  else if m = 4 ∨ m = 6 ∨ m = 9 ∨ m = 11 then 30
  else 31

/-- Days since 1970-01-01 of a civil date (standard days-from-civil
algorithm; exact on the proleptic Gregorian calendar). -/
def daysFromCivil (y m d : Int) : Int :=
  let yAdj : Int := if m ≤ 2 then y - 1 else y
  let era : Int := (if 0 ≤ yAdj then yAdj else yAdj - 399) / 400
  let yoe : Int := yAdj - era * 400
  let mp : Int := (m + 9) % 12
  let doy : Int := (153 * mp + 2) / 5 + d - 1
  let doe : Int := yoe * 365 + yoe / 4 - yoe / 100 + doy
  era * 146097 + doe - 719468

/-- Python `datetime.weekday()`: Monday = 0 … Sunday = 6.
1970-01-01 was a Thursday (weekday 3). -/
def pyWeekday (y m d : Nat) : Nat :=
  ((daysFromCivil (y : Int) (m : Int) (d : Int) + 3) % 7).toNat

/-- Modelled from the spec: `datetime.strptime(s, '%Y-%m-%d %H:%M:%S')`
(Python standard library, not part of this repository) on the fixed
format `YYYY-MM-DD HH:MM:SS`: four year digits, two month digits, two
day digits, two hour digits, two minute digits, two second digits with
literal separators, plus calendar range validation.  `none` models the
`ValueError` the library raises on a non-matching string. -/
def parseDatetime (s : String) : Option PyDateTime :=
  match s.toList with
  | [y1, y2, y3, y4, sep1, mo1, mo2, sep2, d1, d2, sep3,
     h1, h2, sep4, mi1, mi2, sep5, se1, se2] =>
    if sep1 = '-' ∧ sep2 = '-' ∧ sep3 = ' ' ∧ sep4 = ':' ∧ sep5 = ':' then
      match num2 y1 y2, num2 y3 y4, num2 mo1 mo2, num2 d1 d2,
            num2 h1 h2, num2 mi1 mi2, num2 se1 se2 with
      | some yh, some yl, some mo, some d, some h, some mi, some se =>
        let y := 100 * yh + yl
        if 1 ≤ y ∧ 1 ≤ mo ∧ mo ≤ 12 ∧ 1 ≤ d ∧ d ≤ daysInMonth y mo ∧
            h ≤ 23 ∧ mi ≤ 59 ∧ se ≤ 59 then
          some ⟨y, mo, d, h, mi, se⟩
        else none
      | _, _, _, _, _, _, _ => none
    else none
  | _ => none

/-! ## `backend/routers/predictions.py` -/

namespace Predictions

/-- Pydantic request model `TripFeatures` of `predictions.py`. -/
structure TripFeatures where
  pickup_longitude : ℝ
  pickup_latitude : ℝ
  dropoff_longitude : ℝ
  dropoff_latitude : ℝ
  passenger_count : ℤ
  pickup_datetime : String
  vendor_id : ℤ
  store_and_fwd_flag : String

/-- The field constraints pydantic enforces on `TripFeatures` before the
handler runs: `passenger_count` in 1–8 (`ge=1, le=8`), `vendor_id` in 1–2
(`ge=1, le=2`), `store_and_fwd_flag` matching the regex `^[YN]$`.  The four
coordinate fields carry no constraint in the source. -/
def tripFeaturesAccepted (t : TripFeatures) : Bool :=
  decide (1 ≤ t.passenger_count) && decide (t.passenger_count ≤ 8) &&
  decide (1 ≤ t.vendor_id) && decide (t.vendor_id ≤ 2) &&
  (t.store_and_fwd_flag == "Y" || t.store_and_fwd_flag == "N")

/-- Degrees-to-radians conversion (`np.radians`). -/
noncomputable def radians (x : ℝ) : ℝ := x * Real.pi / 180

/-- `haversine_distance` of `predictions.py` (lines 52–63): great-circle
distance in kilometres with Earth radius 6371 km, read over the reals. -/
noncomputable def haversine_distance (lat1 lon1 lat2 lon2 : ℝ) : ℝ :=
  2 * Real.arcsin (Real.sqrt
      (Real.sin ((radians lat2 - radians lat1) / 2) ^ 2 +
        Real.cos (radians lat1) * Real.cos (radians lat2) *
          Real.sin ((radians lon2 - radians lon1) / 2) ^ 2)) * 6371

/-- The 14-field feature dictionary built by `prepare_features`. -/
structure Features where
  vendor_id : ℤ
  passenger_count : ℤ
  pickup_longitude : ℝ
  pickup_latitude : ℝ
  dropoff_longitude : ℝ
  dropoff_latitude : ℝ
  store_and_fwd_flag : ℤ
  distance_km : ℝ
  hour : ℕ
  day_of_week : ℕ
  month : ℕ
  is_weekend : ℤ
  is_night : ℤ
  is_rush_hour : ℤ

/-- `prepare_features` of `predictions.py` (lines 65–99): parse the pickup
timestamp (a `ValueError` from `strptime` is modelled as the `error`
branch), compute the haversine distance, extract hour / weekday / month,
and derive the indicator features. -/
noncomputable def prepare_features (trip : TripFeatures) : Except String Features :=
  match parseDatetime trip.pickup_datetime with
  | none => Except.error ("time data " ++ trip.pickup_datetime ++
      " does not match format %Y-%m-%d %H:%M:%S")
  | some pickup_dt =>
    let distance_km := haversine_distance
      trip.pickup_latitude trip.pickup_longitude
      trip.dropoff_latitude trip.dropoff_longitude
    let hour := pickup_dt.hour
    let day_of_week := pyWeekday pickup_dt.year pickup_dt.month pickup_dt.day
    let month := pickup_dt.month
    Except.ok
      { vendor_id := trip.vendor_id
        passenger_count := trip.passenger_count
        pickup_longitude := trip.pickup_longitude
        pickup_latitude := trip.pickup_latitude
        dropoff_longitude := trip.dropoff_longitude
        dropoff_latitude := trip.dropoff_latitude
        store_and_fwd_flag := if trip.store_and_fwd_flag = "Y" then 1 else 0
        distance_km := distance_km
        hour := hour
        day_of_week := day_of_week
        month := month
        is_weekend := if 5 ≤ day_of_week then 1 else 0
        is_night := if (20 ≤ hour ∧ hour ≤ 23) ∨ (0 ≤ hour ∧ hour < 6) then 1 else 0
        is_rush_hour := if (7 ≤ hour ∧ hour ≤ 10) ∨ (16 ≤ hour ∧ hour ≤ 19) then 1 else 0 }

/-- An opaque loaded model artifact: the code only calls its `predict`
method on the prepared feature row and reads off a scalar of seconds. -/
structure PyModel where
  predict : Features → ℝ

/-- Outcome of `joblib.load(MODEL_PATH)` in the surrounding process:
either a model value or a raised exception (missing/corrupt file). -/
inductive LoadResult where
  | ok (m : PyModel)
  | err
deriving Inhabited

/-- `load_model` of `predictions.py` (lines 39–50), with the module-level
global `_model` made explicit: given the current value of `_model` and the
outcome `joblib.load` would have, return the function's result paired with
the new value of `_model`.  If `_model` is already set it is returned
untouched and `joblib.load` is not consulted; otherwise a load is
attempted, and on failure `_model` stays `None`. -/
def load_model (state : Option PyModel) (env : LoadResult) :
    Option PyModel × Option PyModel :=
  match state with
  | some m => (some m, some m)
  | none =>
    match env with
    | .ok m => (some m, some m)
    | .err => (none, none)

/-- Structured HTTP error response (a raised `HTTPException`). -/
structure HttpError where
  status_code : Nat
  detail : String
deriving DecidableEq

/-- Response model `TripPrediction` of `predictions.py`. -/
structure TripPrediction where
  trip_duration_seconds : ℝ
  trip_duration_minutes : ℝ
  confidence : ℝ

/-- The `/predict` handler `predict_trip_duration` of `predictions.py`
(lines 101–141), with the module global `_model` explicit as in
`load_model`: load (or reuse) the model, 503 if unavailable, prepare
features (a parse failure surfaces as a 422 through the handler's
`except`), call the model once and return seconds, seconds/60 and the
placeholder confidence 0.9.  The second component is the value of
`_model` after the call. -/
noncomputable def predict_trip_duration (state : Option PyModel)
    (env : LoadResult) (trip : TripFeatures) :
    Except HttpError TripPrediction × Option PyModel :=
  let loaded := load_model state env
  match loaded.1 with
  | none => (Except.error ⟨503, "Prediction model is not available"⟩, loaded.2)
  | some model =>
    match prepare_features trip with
    | Except.error msg =>
        (Except.error ⟨422, "Error processing prediction: " ++ msg⟩, loaded.2)
    | Except.ok features =>
        let prediction_seconds := model.predict features
        (Except.ok
          { trip_duration_seconds := prediction_seconds
            trip_duration_minutes := prediction_seconds / 60
            confidence := 0.9 }, loaded.2)

end Predictions

/-! ## `backend/routers/routes.py` -/

namespace Routes

/-- Opaque JSON dictionary, passed through unmodified by the adapter
(route geometry, leg summaries). -/
abbrev PyDict := List (String × String)

/-- Pydantic model `Coordinate` of `routes.py`. -/
structure Coordinate where
  lng : ℝ
  lat : ℝ

/-- Pydantic request model `RouteRequest` of `routes.py`. -/
structure RouteRequest where
  start : Coordinate
  stop : Coordinate
  profile : String
  alternatives : Bool
  optimize_waypoints : Bool

/-- Pydantic model `RouteLegStep` of `routes.py`. -/
structure RouteLegStep where
  distance : ℝ
  duration : ℝ
  instruction : String
  name : String
  way_points : List ℤ

/-- Pydantic model `RouteLeg` of `routes.py`. -/
structure RouteLeg where
  steps : List RouteLegStep
  summary : PyDict
  way_points : List ℤ

/-- Pydantic model `Route` of `routes.py`. -/
structure Route where
  distance : ℝ
  duration : ℝ
  geometry : PyDict
  segments : List RouteLeg

/-- One step of a provider route segment.  `distance` and `duration` are
read by the code with a direct subscript, so they are mandatory fields;
`instruction`, `name` and `way_points` are read with `.get(k, default)`,
so they are `Option` fields whose `none` models an absent key. -/
structure ProviderStep where
  distance : ℝ
  duration : ℝ
  instruction : Option String
  name : Option String
  way_points : Option (List ℤ)

/-- One segment (leg) of a provider route feature.  `steps` is read with a
direct subscript; `summary` and `way_points` with `.get(k, default)`. -/
structure ProviderSegment where
  steps : List ProviderStep
  summary : Option PyDict
  way_points : Option (List ℤ)

/-- `properties.summary` of a provider route feature: both keys are read
with direct subscripts. -/
structure ProviderSummary where
  distance : ℝ
  duration : ℝ

/-- One route feature of the provider response: `properties.segments`,
`properties.summary` and `geometry` are all read with direct subscripts. -/
structure ProviderFeature where
  segments : List ProviderSegment
  summary : ProviderSummary
  geometry : PyDict

/-- The GeoJSON response of `client.directions`: its `features` list. -/
structure ProviderResponse where
  features : List ProviderFeature

/-- Outcome of the outbound `client.directions` network call: a response
payload, or a raised exception (network error, rate limit, malformed
payload) carrying the exception's message. -/
inductive OrsResult where
  | ok (resp : ProviderResponse)
  | exn (msg : String)

/-- Reshaping of one provider step into a `RouteLegStep` (lines 93–99 of
`routes.py`): absent `instruction` and `name` default to the empty string,
absent `way_points` to the empty list. -/
def reshapeStep (step : ProviderStep) : RouteLegStep :=
  { distance := step.distance
    duration := step.duration
    instruction := step.instruction.getD ""
    name := step.name.getD ""
    way_points := step.way_points.getD [] }

/-- Reshaping of one provider segment into a `RouteLeg` (lines 101–105 of
`routes.py`): absent `summary` defaults to the empty dict, absent
`way_points` to the empty list. -/
def reshapeLeg (leg : ProviderSegment) : RouteLeg :=
  { steps := leg.steps.map reshapeStep
    summary := leg.summary.getD []
    way_points := leg.way_points.getD [] }

/-- Building the `Route` response from the first provider feature
(lines 86–112 of `routes.py`). -/
def formatRoute (feature : ProviderFeature) : Route :=
  { distance := feature.summary.distance
    duration := feature.summary.duration
    geometry := feature.geometry
    segments := feature.segments.map reshapeLeg }

/-- Structured HTTP error response (a raised `HTTPException`). -/
structure HttpError where
  status_code : Nat
  detail : String
deriving DecidableEq

/-- Python `str(e)` for a raised `HTTPException` (Starlette renders it as
`"{status_code}: {detail}"`). -/
def httpErrorStr (e : HttpError) : String :=
  toString e.status_code ++ ": " ++ e.detail

/-- The `/optimize` handler `get_optimized_route` of `routes.py`
(lines 54–123), with its process environment explicit: `apiKey` is the
`ORS_API_KEY` module constant (`none` when the variable is absent) and
`provider` is the outcome the outbound `client.directions` call would
have.  The result is the handler's outcome paired with the number of
outbound network calls performed.

Control flow follows the source: the missing-key check raises a 500
before the `try` block; inside the `try`, a provider exception and any
`HTTPException` raised there — including the 404 for an empty feature
list — are caught by the blanket `except Exception` and re-raised as
`HTTPException(500, "Error calculating route: " + str(e))`. -/
def get_optimized_route (apiKey : Option String) (provider : OrsResult)
    (route_request : RouteRequest) : Except HttpError Route × Nat :=
  match apiKey with
  | none => (Except.error ⟨500, "OpenRouteService API key not configured"⟩, 0)
  | some _ =>
    match provider with
    | .exn msg => (Except.error ⟨500, "Error calculating route: " ++ msg⟩, 1)
    | .ok resp =>
      match resp.features with
      | [] =>
        (Except.error ⟨500, "Error calculating route: " ++
          httpErrorStr ⟨404, "No route found between the specified points"⟩⟩, 1)
      | feature :: _ => (Except.ok (formatRoute feature), 1)

end Routes

/-! ## `backend/app/utils.py` -/

namespace Utils

/-- The names bound at module scope in `backend/app/utils.py`: the targets
of its eight import statements (lines 1–8) followed by every top-level
assignment, `def` and `class` of the module.  `math` is imported nowhere
in this module, and `math` is not a Python builtin either. -/
def moduleNames : List String :=
  ["os", "logging", "Any", "Dict", "Optional", "datetime", "timedelta",
   "jwt", "CryptContext", "HTTPException", "status", "load_dotenv",
   "SECRET_KEY", "ALGORITHM", "ACCESS_TOKEN_EXPIRE_MINUTES", "pwd_context",
   "setup_logging", "verify_password", "get_password_hash",
   "create_access_token", "decode_token", "haversine_distance",
   "format_duration", "format_distance", "AppException",
   "NotFoundException", "UnauthorizedException", "ForbiddenException",
   "validate_coordinates", "RateLimiter", "logger"]

/-- `haversine_distance` of `utils.py` (lines 64–78).  Its body evaluates
`math.radians` first, which resolves the name `math` in the module scope;
the module never imports `math`, so the lookup is modelled explicitly and
its failure is the `NameError` the interpreter raises.  Were the name
bound, the same haversine formula as in `predictions.py` would be
computed. -/
noncomputable def haversine_distance (lat1 lon1 lat2 lon2 : ℝ) :
    Except String ℝ :=
  if "math" ∈ moduleNames then
    Except.ok (Predictions.haversine_distance lat1 lon1 lat2 lon2)
  else
    Except.error "NameError: name math is not defined"

/-- `validate_coordinates` of `utils.py` (lines 124–135): rejects a
latitude outside [-90, 90] or a longitude outside [-180, 180] with a 400
error.  Present in the module but called by no router. -/
noncomputable def validate_coordinates (lat lng : ℝ) : Except Routes.HttpError Unit :=
  if ¬(-90 ≤ lat ∧ lat ≤ 90) then
    Except.error ⟨400, "Latitude must be between -90 and 90"⟩
  else if ¬(-180 ≤ lng ∧ lng ≤ 180) then
    Except.error ⟨400, "Longitude must be between -180 and 180"⟩
  else
    Except.ok ()

end Utils

/-! ## Concrete inputs used by the witness theorems -/

/-- A stand-in loaded artifact whose inference returns 0 seconds. -/
noncomputable def demoModel : Predictions.PyModel := ⟨fun _ => 0⟩

/-- The end-to-end example trip of the spec (noon pickup). -/
noncomputable def demoTrip : Predictions.TripFeatures :=
  { pickup_longitude := -73.9857
    pickup_latitude := 40.7484
    dropoff_longitude := -73.9881
    dropoff_latitude := 40.7517
    passenger_count := 1
    pickup_datetime := "2023-01-01 12:00:00"
    vendor_id := 1
    store_and_fwd_flag := "N" }

/-- The example trip with a 05:00 pickup (a night hour). -/
noncomputable def demoTripNight : Predictions.TripFeatures :=
  { demoTrip with pickup_datetime := "2023-01-01 05:00:00" }

/-- The example trip with a 10:00 pickup (a rush hour). -/
noncomputable def demoTripRush : Predictions.TripFeatures :=
  { demoTrip with pickup_datetime := "2023-01-01 10:00:00" }

/-- The example trip with an out-of-range pickup latitude of 200 degrees. -/
noncomputable def badCoordTrip : Predictions.TripFeatures :=
  { demoTrip with pickup_latitude := 200 }

/-- The feature row `prepare_features` builds for `demoTripNight`. -/
noncomputable def demoFeaturesNight : Predictions.Features :=
  { vendor_id := 1
    passenger_count := 1
    pickup_longitude := -73.9857
    pickup_latitude := 40.7484
    dropoff_longitude := -73.9881
    dropoff_latitude := 40.7517
    store_and_fwd_flag := 0
    distance_km := Predictions.haversine_distance 40.7484 (-73.9857) 40.7517 (-73.9881)
    hour := 5
    day_of_week := 6
    month := 1
    is_weekend := 1
    is_night := 1
    is_rush_hour := 0 }

/-- The feature row `prepare_features` builds for `demoTripRush`. -/
noncomputable def demoFeaturesRush : Predictions.Features :=
  { demoFeaturesNight with hour := 10, is_night := 0, is_rush_hour := 1 }

/-- The prediction the handler returns for `demoTrip` under `demoModel`. -/
noncomputable def demoPrediction : Predictions.TripPrediction :=
  { trip_duration_seconds := 0
    trip_duration_minutes := 0 / 60
    confidence := 0.9 }

/-- A provider step with `instruction`, `name` and `way_points` absent. -/
noncomputable def demoStep : Routes.ProviderStep :=
  { distance := 120
    duration := 30
    instruction := none
    name := none
    way_points := none }

/-- A provider segment holding only `demoStep`, with optional keys absent. -/
noncomputable def demoSegment : Routes.ProviderSegment :=
  { steps := [demoStep]
    summary := none
    way_points := none }

/-- A provider route feature holding only `demoSegment`. -/
noncomputable def demoFeature : Routes.ProviderFeature :=
  { segments := [demoSegment]
    summary := ⟨1000, 600⟩
    geometry := [] }

/-- A concrete route request between the two example coordinates. -/
noncomputable def demoRouteRequest : Routes.RouteRequest :=
  { start := ⟨-73.9857, 40.7484⟩
    stop := ⟨-73.9881, 40.7517⟩
    profile := "driving-car"
    alternatives := false
    optimize_waypoints := false }

/-! ## Theorems settling the claims -/

open Predictions Routes

/-- Claim C1, as the code actually behaves at the claimed input: when the
provider responds successfully with an empty feature list, the handler
raises the 404 `NotFound` inside the `try` block, the blanket
`except Exception` catches it, and the operation's result is a generic
500 error wrapping `str(e)` — not a `NotFound` (not-found status). -/
theorem optimize_empty_features_returns_500 (key : String)
    (route_request : RouteRequest) :
    (get_optimized_route (some key) (OrsResult.ok ⟨[]⟩) route_request).1 =
      Except.error ⟨500,
        "Error calculating route: 404: No route found between the specified points"⟩ :=
  rfl

/-- Claim C2, as the code actually behaves: a trip request whose pickup
latitude is 200 degrees passes every constraint pydantic enforces on
`TripFeatures`, is not rejected, and a prediction is computed for it.
The module's own `validate_coordinates` would reject the same pair with
a 400 client error, but no router ever calls that function. -/
theorem out_of_range_coordinates_accepted :
    badCoordTrip.pickup_latitude = 200 ∧
    tripFeaturesAccepted badCoordTrip = true ∧
    (∃ f, prepare_features badCoordTrip = Except.ok f) ∧
    (∃ p st2, predict_trip_duration (some demoModel) LoadResult.err badCoordTrip =
        (Except.ok p, st2)) ∧
    Utils.validate_coordinates badCoordTrip.pickup_latitude badCoordTrip.pickup_longitude =
      Except.error ⟨400, "Latitude must be between -90 and 90"⟩ := by
  refine ⟨rfl, rfl, ⟨_, rfl⟩, ⟨_, _, rfl⟩, ?_⟩
  have hlat : badCoordTrip.pickup_latitude = (200 : ℝ) := rfl
  have hlng : badCoordTrip.pickup_longitude = (-73.9857 : ℝ) := rfl
  rw [hlat, hlng]
  unfold Utils.validate_coordinates
  have hfalse : ¬((-90 : ℝ) ≤ 200 ∧ (200 : ℝ) ≤ 90) :=
    fun hc => absurd hc.2 (by norm_num)
  rw [if_pos hfalse]

/-- Claim C3: with the provider API key absent from the configuration,
every call to the route-optimize operation fails with the configuration
500 error, whatever the provider would have answered, and performs zero
outbound network calls. -/
theorem optimize_missing_key_config_error (provider : OrsResult)
    (route_request : RouteRequest) :
    get_optimized_route none provider route_request =
      (Except.error ⟨500, "OpenRouteService API key not configured"⟩, 0) :=
  rfl

/-- Claim C4: for every trip request with a parseable timestamp, the
feature builder sets `is_night = 1` iff the derived hour lies in
[20, 23] ∪ [0, 6), and `is_night = 0` otherwise (so hour 6 yields 0 and
hour 5 yields 1). -/
theorem is_night_iff_hour (trip : TripFeatures) (f : Features)
    (h : prepare_features trip = Except.ok f) :
    (f.is_night = 1 ↔ (20 ≤ f.hour ∧ f.hour ≤ 23) ∨ f.hour < 6) ∧
    (f.is_night = 0 ↔ ¬((20 ≤ f.hour ∧ f.hour ≤ 23) ∨ f.hour < 6)) := by
  cases hp : parseDatetime trip.pickup_datetime with
  | none => simp [prepare_features, hp] at h
  | some dt =>
    simp only [prepare_features, hp, Except.ok.injEq] at h
    subst h
    dsimp only
    constructor
    · split_ifs with hc <;> omega
    · split_ifs with hc <;> omega

/-- Claim C4 witness: the 05:00 example trip parses, and the boundary
equivalence holds on its derived feature row. -/
theorem is_night_iff_hour_witness :
    (demoFeaturesNight.is_night = 1 ↔
      (20 ≤ demoFeaturesNight.hour ∧ demoFeaturesNight.hour ≤ 23) ∨
        demoFeaturesNight.hour < 6) ∧
    (demoFeaturesNight.is_night = 0 ↔
      ¬((20 ≤ demoFeaturesNight.hour ∧ demoFeaturesNight.hour ≤ 23) ∨
        demoFeaturesNight.hour < 6)) :=
  is_night_iff_hour demoTripNight demoFeaturesNight rfl

/-- Claim C5: for every trip request with a parseable timestamp, the
feature builder sets `is_rush_hour = 1` iff the derived hour lies in
[7, 10] ∪ [16, 19], both intervals inclusive at both ends, and
`is_rush_hour = 0` otherwise (so hours 10 and 19 yield 1 and hour 11
yields 0). -/
theorem is_rush_hour_iff_hour (trip : TripFeatures) (f : Features)
    (h : prepare_features trip = Except.ok f) :
    (f.is_rush_hour = 1 ↔ (7 ≤ f.hour ∧ f.hour ≤ 10) ∨ (16 ≤ f.hour ∧ f.hour ≤ 19)) ∧
    (f.is_rush_hour = 0 ↔ ¬((7 ≤ f.hour ∧ f.hour ≤ 10) ∨ (16 ≤ f.hour ∧ f.hour ≤ 19))) := by
  cases hp : parseDatetime trip.pickup_datetime with
  | none => simp [prepare_features, hp] at h
  | some dt =>
    simp only [prepare_features, hp, Except.ok.injEq] at h
    subst h
    dsimp only
    constructor
    · split_ifs with hc <;> omega
    · split_ifs with hc <;> omega

/-- Claim C5 witness: the 10:00 example trip parses, and the boundary
equivalence holds on its derived feature row. -/
theorem is_rush_hour_iff_hour_witness :
    (demoFeaturesRush.is_rush_hour = 1 ↔
      (7 ≤ demoFeaturesRush.hour ∧ demoFeaturesRush.hour ≤ 10) ∨
        (16 ≤ demoFeaturesRush.hour ∧ demoFeaturesRush.hour ≤ 19)) ∧
    (demoFeaturesRush.is_rush_hour = 0 ↔
      ¬((7 ≤ demoFeaturesRush.hour ∧ demoFeaturesRush.hour ≤ 10) ∨
        (16 ≤ demoFeaturesRush.hour ∧ demoFeaturesRush.hour ≤ 19))) :=
  is_rush_hour_iff_hour demoTripRush demoFeaturesRush rfl

/-- Claim C6: every successful prediction returned by the handler has
`trip_duration_minutes` equal to `trip_duration_seconds / 60` exactly,
whatever the model state, the load outcome and the request. -/
theorem prediction_minutes_eq_seconds_div_60 (state : Option PyModel)
    (env : LoadResult) (trip : TripFeatures) (p : TripPrediction)
    (h : (predict_trip_duration state env trip).1 = Except.ok p) :
    p.trip_duration_minutes = p.trip_duration_seconds / 60 := by
  cases state with
  | some m =>
    cases hp : prepare_features trip with
    | error msg => simp [predict_trip_duration, load_model, hp] at h
    | ok f =>
      simp only [predict_trip_duration, load_model, hp, Except.ok.injEq] at h
      subst h
      rfl
  | none =>
    cases env with
    | err => simp [predict_trip_duration, load_model] at h
    | ok m =>
      cases hp : prepare_features trip with
      | error msg => simp [predict_trip_duration, load_model, hp] at h
      | ok f =>
        simp only [predict_trip_duration, load_model, hp, Except.ok.injEq] at h
        subst h
        rfl

/-- Claim C6 witness: a concrete successful prediction (the example trip
under `demoModel`) satisfies `minutes = seconds / 60`. -/
theorem prediction_minutes_eq_seconds_div_60_witness :
    demoPrediction.trip_duration_minutes =
      demoPrediction.trip_duration_seconds / 60 :=
  prediction_minutes_eq_seconds_div_60 (some demoModel) LoadResult.err demoTrip
    demoPrediction rfl

/-- Claim C7: the model handle is a lazy singleton. On first use with a
successful load the handle is initialized; once `_model` holds a handle,
`load_model` returns that same handle and leaves the state unchanged,
whatever `joblib.load` would now do (so it is neither reloaded nor
invalidated), and a full call of the prediction operation also leaves
the stored handle unchanged. -/
theorem load_model_lazy_singleton (m : PyModel) (env : LoadResult)
    (trip : TripFeatures) :
    load_model none (LoadResult.ok m) = (some m, some m) ∧
    load_model (some m) env = (some m, some m) ∧
    (predict_trip_duration (some m) env trip).2 = some m := by
  refine ⟨rfl, rfl, ?_⟩
  cases hp : prepare_features trip with
  | error msg => simp [predict_trip_duration, load_model, hp]
  | ok f => simp [predict_trip_duration, load_model, hp]

/-- Claim C8: in a non-empty provider payload the adapter returns the
reshaped first feature; a step missing `instruction` yields
`instruction = ""` in the reshaped output (not an error), a missing
`name` defaults to `""`, and missing `way_points` defaults to `[]`, and
the reshaped step does appear in the returned route. -/
theorem optimize_missing_step_fields_default (key : String)
    (route_request : RouteRequest) (f : ProviderFeature)
    (rest : List ProviderFeature) (leg : ProviderSegment) (s : ProviderStep)
    (hleg : leg ∈ f.segments) (hs : s ∈ leg.steps)
    (hins : s.instruction = none) (hname : s.name = none)
    (hwp : s.way_points = none) :
    (get_optimized_route (some key) (OrsResult.ok ⟨f :: rest⟩) route_request).1 =
        Except.ok (formatRoute f) ∧
    reshapeLeg leg ∈ (formatRoute f).segments ∧
    reshapeStep s ∈ (reshapeLeg leg).steps ∧
    (reshapeStep s).instruction = "" ∧ (reshapeStep s).name = "" ∧
    (reshapeStep s).way_points = [] := by
  refine ⟨rfl, ?_, ?_, ?_, ?_, ?_⟩
  · exact List.mem_map_of_mem _ hleg
  · exact List.mem_map_of_mem _ hs
  · simp [reshapeStep, hins]
  · simp [reshapeStep, hname]
  · simp [reshapeStep, hwp]

/-- Claim C8 witness: the concrete provider payload whose only step has
`instruction`, `name` and `way_points` absent reshapes into a returned
route whose step carries the empty-string and empty-list defaults. -/
theorem optimize_missing_step_fields_default_witness :
    (get_optimized_route (some "test-key") (OrsResult.ok ⟨[demoFeature]⟩)
        demoRouteRequest).1 = Except.ok (formatRoute demoFeature) ∧
    reshapeLeg demoSegment ∈ (formatRoute demoFeature).segments ∧
    reshapeStep demoStep ∈ (reshapeLeg demoSegment).steps ∧
    (reshapeStep demoStep).instruction = "" ∧ (reshapeStep demoStep).name = "" ∧
    (reshapeStep demoStep).way_points = [] :=
  optimize_missing_step_fields_default "test-key" demoRouteRequest demoFeature []
    demoSegment demoStep (by simp [demoFeature]) (by simp [demoSegment])
    rfl rfl rfl

/-- Claim C9: the haversine distance used by the feature builder is
symmetric in its two coordinate pairs, and the distance from any pair to
itself is zero. -/
theorem haversine_symm_and_self_zero :
    (∀ lat1 lon1 lat2 lon2 : ℝ,
        haversine_distance lat1 lon1 lat2 lon2 =
          haversine_distance lat2 lon2 lat1 lon1) ∧
    (∀ lat lon : ℝ, haversine_distance lat lon lat lon = 0) := by
  constructor
  · intro lat1 lon1 lat2 lon2
    unfold haversine_distance
    have key : Real.sin ((radians lat1 - radians lat2) / 2) ^ 2 +
          Real.cos (radians lat2) * Real.cos (radians lat1) *
            Real.sin ((radians lon1 - radians lon2) / 2) ^ 2 =
        Real.sin ((radians lat2 - radians lat1) / 2) ^ 2 +
          Real.cos (radians lat1) * Real.cos (radians lat2) *
            Real.sin ((radians lon2 - radians lon1) / 2) ^ 2 := by
      rw [show (radians lat1 - radians lat2) / 2 =
            -((radians lat2 - radians lat1) / 2) by ring,
          show (radians lon1 - radians lon2) / 2 =
            -((radians lon2 - radians lon1) / 2) by ring,
          Real.sin_neg, Real.sin_neg]
      ring
    rw [key]
  · intro lat lon
    unfold haversine_distance
    have h0 : Real.sin ((radians lat - radians lat) / 2) ^ 2 +
          Real.cos (radians lat) * Real.cos (radians lat) *
            Real.sin ((radians lon - radians lon) / 2) ^ 2 = 0 := by
      simp
    rw [h0, Real.sqrt_zero, Real.arcsin_zero, mul_zero, zero_mul]

/-- Claim C10: the copy of `haversine_distance` in `backend/app/utils.py`
refers to the name `math`, which that module never imports, so every call
of that copy raises a `NameError` instead of returning a distance; the
separate copy in the predictions module (`Predictions.haversine_distance`)
is the one that computes a value. -/
theorem utils_haversine_always_name_error (lat1 lon1 lat2 lon2 : ℝ) :
    Utils.haversine_distance lat1 lon1 lat2 lon2 =
      Except.error "NameError: name math is not defined" := by
  unfold Utils.haversine_distance
  exact if_neg (by decide)

end TrafficMS
